import Mathlib

/-!
Verification of the marapp-metrics zonal-statistics pipeline.

Shallow embedding of `src/marapp_metrics`:
* `metricBaseInit` embeds `MetricBase.__init__` (keyword-argument handling),
  and each per-metric initializer embeds the corresponding subclass
  `__init__` (which re-reads `scale` / `best_effort` after the base call).
* `exceedsLimit` / `measureStart` embed `MetricBase._exceeds_limit` and the
  area gate at the top of `MetricBase.measure`.
* `simplifyPolygonOps` embeds the geometry operations of
  `MetricBase._simplify_polygon`.
* `pyRange` / `chunkList` / `intersectResults` embed the chunked reduction
  of `MetricBase._intersect`.
* `loopVals` / `createGrid` embed the cell generation of
  `MetricBase._create_grid`.
* A proleptic-Gregorian calendar stack embeds the Python `datetime`
  operations used by `ModisFire._generate_isoweek`, and `bucketMask`
  embeds the burn-date mask construction of `ModisFire.__init__`.
* Aggregators (`treeLossAggregate`, `biiAggregate`, `paAggregate`,
  `hiAggregate`, `landCoverAggregate`) embed the `_aggregate` /
  `_package_metric` methods of the individual metric classes.

Machine floats of the source are modelled as exact rationals; Python
exceptions (`ZeroDivisionError`, `KeyError`, the metric exceptions) are
modelled with `Except`.
-/

/-- Python exception kinds raised by the embedded code paths. -/
inductive PyErr where
  | computeErr   -- MetricComputeException
  | packageErr   -- MetricPackageException
  | zeroDivision -- ZeroDivisionError
  | keyErr       -- KeyError
  deriving DecidableEq, Repr

/-- The keyword arguments recognised by the metric constructors
(`kwargs.get(key, default)` is `field.getD default`).  A `none` field means
the keyword was not supplied by the caller. -/
structure Kwargs where
  grid : Option Bool := none
  simplify : Option Bool := none
  area_threshold : Option ℚ := none
  grid_size_degrees : Option ℚ := none
  precision : Option ℕ := none
  scale : Option ℚ := none
  best_effort : Option Bool := none
  max_pixels : Option ℚ := none
  chunk_size : Option ℕ := none
  use_exceeds_limit : Option Bool := none
  config_filepath : Option String := none

/-- The instance attributes set by `MetricBase.__init__`
(metric_base.py lines 41-61). -/
structure BaseParams where
  grid : Bool
  simplify : Bool
  simplify_tolerance : ℚ
  area_threshold : ℚ
  grid_size_degrees : ℚ
  precision : ℕ
  scale : ℚ
  best_effort : Bool
  max_pixels : ℚ
  chunk_size : ℕ
  use_exceeds_limit : Bool
  config_filepath : String
  deriving DecidableEq, Repr

/-- `MetricBase.__init__`: reads every recognised keyword with its default,
then applies the `simplify` and `best_effort` overrides in source order. -/
def metricBaseInit (kw : Kwargs) : BaseParams :=
  let p : BaseParams := {
    grid := kw.grid.getD false
    simplify := kw.simplify.getD false
    simplify_tolerance := 0.00001
    area_threshold := kw.area_threshold.getD 1e6
    grid_size_degrees := kw.grid_size_degrees.getD 1
    precision := kw.precision.getD 5
    scale := kw.scale.getD 300
    best_effort := kw.best_effort.getD false
    max_pixels := kw.max_pixels.getD 1e18
    chunk_size := kw.chunk_size.getD 500
    use_exceeds_limit := kw.use_exceeds_limit.getD false
    config_filepath := kw.config_filepath.getD ("earthengine.yaml") }
  let p := if p.simplify then { p with simplify_tolerance := 0.001, precision := 4 } else p
  let p := if p.best_effort then { p with max_pixels := 1e7 } else p
  p

/-- `ModisEvi.__init__` calls `super().__init__()` WITHOUT forwarding any
keyword arguments (modis_evi.py line 71), then re-reads only `scale`
(default 250) and `best_effort` (default True) from its own kwargs. -/
def modisEviInit (kw : Kwargs) : BaseParams :=
  let base := metricBaseInit {}
  { base with scale := kw.scale.getD 250, best_effort := kw.best_effort.getD true }

/-- `BiodiversityIntactnessMetric.__init__`: forwards kwargs to the base,
then re-reads `scale` (default 300) and `best_effort` (default True). -/
def biodiversityInit (kw : Kwargs) : BaseParams :=
  let base := metricBaseInit kw
  { base with scale := kw.scale.getD 300, best_effort := kw.best_effort.getD true }

/-- `ProtectedAreas.__init__`: forwards kwargs to the base, then re-reads
`scale` (default 30) and `best_effort` (default True). -/
def protectedAreasInit (kw : Kwargs) : BaseParams :=
  let base := metricBaseInit kw
  { base with scale := kw.scale.getD 30, best_effort := kw.best_effort.getD true }

/-- `ModisFire.__init__` compute flags: forwards kwargs to the base, then
re-reads `scale` (default 500) and `best_effort` (default True). -/
def modisFireInit (kw : Kwargs) : BaseParams :=
  let base := metricBaseInit kw
  { base with scale := kw.scale.getD 500, best_effort := kw.best_effort.getD true }

/-- `TreeLoss.__init__` compute flags: forwards kwargs to the base, then
re-reads `scale` (default 30) and `best_effort` (default True). -/
def treeLossInit (kw : Kwargs) : BaseParams :=
  let base := metricBaseInit kw
  { base with scale := kw.scale.getD 30, best_effort := kw.best_effort.getD true }

/-- The rule table of `MetricBase._exceeds_limit` (metric_base.py lines
82-85): slug families with their pixel-count thresholds. -/
def exceedsLimitRules : List (List String × ℚ) :=
  [(["tree-loss", "protected-areas"], 3.0e9),
   (["modis-fire", "modis-evi"], 1.1e7)]

/-- `MetricBase._exceeds_limit`: with a known area and the gate enabled,
compare the estimated pixel count `area_km2 * 1e6 / scale^2` against the
slug family threshold. -/
def exceedsLimit (slug : String) (p : BaseParams) (area_km2 : Option ℚ) : Bool :=
  match area_km2 with
  | none => false
  | some a =>
    if p.use_exceeds_limit then
      let pixels := a * 1e6 / p.scale ^ 2
      exceedsLimitRules.any (fun r => slug ∈ r.1 ∧ pixels > r.2)
    else false

/-- The area gate at the top of `MetricBase.measure` (lines 71-74): raise
`MetricComputeException` before any reduction or aggregation; `.ok ()`
means the pipeline proceeds to prepare/reduce/aggregate. -/
def measureStart (slug : String) (p : BaseParams) (area_km2 : Option ℚ) :
    Except PyErr Unit :=
  if exceedsLimit slug p area_km2 then .error .computeErr else .ok ()

/-- Modelled from the spec: the slug of `ModisEvi`, which the source reads
from the configuration file `earthengine.yaml` (absent from `src/`); the
spec groups the metric into the `modis-fire`/`modis-evi` family. -/
def modisEviSlug : String := "modis-evi"

/-- Modelled from the spec: the slug of `TreeLoss`, read from the missing
configuration file; the spec groups it into the `tree-loss`/
`protected-areas` family. -/
def treeLossSlug : String := "tree-loss"

/-- One geometry operation applied by `MetricBase._simplify_polygon`. -/
inductive GeomOp where
  | simplifyOp (tolerance : ℚ) (preserve_topology : Bool)
  | bufferOp (distance : ℚ)
  | roundOp (rounding_precision : ℕ)
  deriving DecidableEq, Repr

/-- `MetricBase._simplify_polygon` (lines 130-145): shapely `simplify` at
`self.simplify_tolerance` with `preserve_topology=True`, a zero-distance
`buffer(0)` repair, then a WKT dump/load roundtrip at the hard-coded
`rounding_precision=4`. -/
def simplifyPolygonOps (p : BaseParams) : List GeomOp :=
  [.simplifyOp p.simplify_tolerance true, .bufferOp 0, .roundOp 4]

/-- Python `range(start, stop, step)` for a non-negative step, as a list.
(The source only ever calls it with the positive step `chunk_size`.) -/
def pyRange (start stop step : ℕ) : List ℕ :=
  (List.range ((stop - start + step - 1) / step)).map (fun k => start + k * step)

/-- The chunk slicing of `MetricBase._intersect` (lines 96-100):
`[feats_list[i : i + n] for i in range(0, len(feats_list), n)]`. -/
def chunkList (n : ℕ) (l : List α) : List (List α) :=
  (pyRange 0 l.length n).map (fun i => (l.drop i).take n)

/-- The chunk loop of `MetricBase._intersect` (lines 102-128): each chunk
is mapped feature-by-feature through the reduction `f`, and the per-chunk
result lists are concatenated in order (`data += ...`). -/
def intersectResults (n : ℕ) (f : α → β) (l : List α) : List β :=
  ((chunkList n l).map (fun chunk => chunk.map f)).flatten

theorem pyRange_zero_zero (n : ℕ) : pyRange 0 0 n = [] := by
  unfold pyRange
  rcases Nat.eq_zero_or_pos n with h | h
  · subst h; rfl
  · rw [Nat.div_eq_of_lt (by omega)]; rfl

theorem chunkList_nil (n : ℕ) : chunkList n ([] : List α) = [] := by
  simp [chunkList, pyRange_zero_zero]

theorem pyRange_cons (n t : ℕ) (hn : 0 < n) (ht : 0 < t) :
    pyRange 0 t n = 0 :: (pyRange 0 (t - n) n).map (· + n) := by
  unfold pyRange
  have hc : (t - 0 + n - 1) / n = (t - 1) / n + 1 := by
    have h1 : t - 0 + n - 1 = (t - 1) + n := by omega
    rw [h1, Nat.add_div_right _ hn]
  have hc2 : (t - n - 0 + n - 1) / n = (t - 1) / n := by
    rcases le_or_lt t n with h | h
    · have e1 : t - n - 0 + n - 1 = n - 1 := by omega
      have e2 : (n - 1) / n = 0 := Nat.div_eq_of_lt (by omega)
      have e3 : (t - 1) / n = 0 := Nat.div_eq_of_lt (by omega)
      rw [e1, e2, e3]
    · have e1 : t - n - 0 + n - 1 = t - 1 := by omega
      rw [e1]
  rw [hc, hc2, List.range_succ_eq_map]
  simp only [List.map_cons, List.map_map]
  refine congrArg₂ List.cons (by simp) ?_
  apply List.map_congr_left
  intro k _
  simp only [Function.comp_apply]
  rw [Nat.succ_mul]
  omega

theorem chunkList_cons (n : ℕ) (hn : 0 < n) (l : List α) (hl : l ≠ []) :
    chunkList n l = l.take n :: chunkList n (l.drop n) := by
  have hlen : 0 < l.length := List.length_pos.mpr hl
  unfold chunkList
  rw [pyRange_cons n l.length hn hlen, List.length_drop]
  simp only [List.map_cons, List.map_map, List.drop_zero]
  refine congrArg₂ List.cons rfl ?_
  apply List.map_congr_left
  intro i _
  simp only [Function.comp_apply]
  rw [List.drop_drop, Nat.add_comm]

theorem chunkList_flatten (n : ℕ) (hn : 0 < n) (l : List α) :
    (chunkList n l).flatten = l := by
  have key : ∀ fuel : ℕ, ∀ l : List α, l.length ≤ fuel →
      (chunkList n l).flatten = l := by
    intro fuel
    induction fuel with
    | zero =>
      intro l hl
      have : l = [] := List.eq_nil_of_length_eq_zero (by omega)
      subst this; simp [chunkList_nil]
    | succ m ih =>
      intro l hl
      rcases eq_or_ne l [] with h | h
      · subst h; simp [chunkList_nil]
      · rw [chunkList_cons n hn l h, List.flatten_cons,
          ih (l.drop n) (by rw [List.length_drop]; omega),
          List.take_append_drop]
  exact key l.length l le_rfl

theorem chunkList_chunk_le (n : ℕ) (l : List α) :
    ∀ c ∈ chunkList n l, c.length ≤ n := by
  intro c hc
  unfold chunkList at hc
  rcases List.mem_map.mp hc with ⟨i, _, rfl⟩
  simp [List.length_take]

theorem intersectResults_eq_map (n : ℕ) (hn : 0 < n) (f : α → β) (l : List α) :
    intersectResults n f l = l.map f := by
  unfold intersectResults
  rw [← List.map_flatten, chunkList_flatten n hn]

/-- The coordinate loop of `MetricBase._create_grid` (lines 250-261):
`lon = start; while lon < stop: ...; lon += step`, returning the sequence
of loop-variable values.  For `step <= 0` the Python loop would diverge;
the source only calls it with the positive `grid_size_degrees`, and this
embedding returns `[]` in the unreachable non-positive case. -/
def loopVals (start stop step : ℚ) : List ℚ :=
  if h : 0 < step ∧ start < stop then
    start :: loopVals (start + step) stop step
  else []
  termination_by ⌈(stop - start) / step⌉.toNat
  decreasing_by
    obtain ⟨hs, hlt⟩ := h
    have h1 : (stop - (start + step)) / step = (stop - start) / step - 1 := by
      field_simp
      ring
    have hx : (0:ℚ) < (stop - start) / step := div_pos (by linarith) hs
    have h2 : 0 < ⌈(stop - start) / step⌉ := Int.ceil_pos.mpr hx
    rw [h1, Int.ceil_sub_one]
    omega

/-- A generated grid cell `(x1, y1, x2, y2)`, the arguments of
`ee.Geometry.Rectangle` in `MetricBase._create_grid`. -/
abbrev Cell : Type := ℚ × ℚ × ℚ × ℚ

/-- The outcome of `MetricBase._create_grid`: either the single original
feature (grid larger than the feature), or the generated cells (before
intersection with the feature). -/
inductive GridOutcome where
  | original
  | cells (cs : List Cell)
  deriving DecidableEq, Repr

/-- `MetricBase._create_grid` (lines 215-263) on the feature's bounding box
`[lonStart, lonEnd] x [latStart, latEnd]`: return the original feature when
the cell size exceeds both box dimensions, otherwise generate cells from
the minimum corner stepping by `g` (outer loop over longitude, inner loop
over latitude). -/
def createGrid (lonStart lonEnd latStart latEnd g : ℚ) : GridOutcome :=
  let lonWidth := lonEnd - lonStart
  let latWidth := latEnd - latStart
  if g > lonWidth ∧ g > latWidth then
    .original
  else
    .cells ((loopVals lonStart lonEnd g).flatMap fun x =>
      (loopVals latStart latEnd g).map fun y => (x, y, x + g, y + g))

theorem loopVals_eq_range_map (stop step : ℚ) (hs : 0 < step) :
    ∀ start : ℚ, loopVals start stop step =
      (List.range ⌈(stop - start) / step⌉.toNat).map
        (fun i : ℕ => start + (i : ℚ) * step) := by
  have key : ∀ N : ℕ, ∀ start : ℚ, ⌈(stop - start) / step⌉.toNat = N →
      loopVals start stop step =
        (List.range N).map (fun i : ℕ => start + (i : ℚ) * step) := by
    intro N
    induction N with
    | zero =>
      intro start hN
      rw [loopVals.eq_def, dif_neg]
      · simp
      · rintro ⟨-, hlt⟩
        have hx : (0:ℚ) < (stop - start) / step := div_pos (by linarith) hs
        have h2 : 0 < ⌈(stop - start) / step⌉ := Int.ceil_pos.mpr hx
        omega
    | succ m ih =>
      intro start hN
      have hlt : start < stop := by
        by_contra hge
        have hx : (stop - start) / step ≤ 0 := by
          apply div_nonpos_of_nonpos_of_nonneg <;> linarith
        have h2 : ⌈(stop - start) / step⌉ ≤ 0 := by
          simpa using Int.ceil_le.mpr (le_trans hx (by norm_num))
        omega
      rw [loopVals.eq_def, dif_pos ⟨hs, hlt⟩]
      have h1 : (stop - (start + step)) / step = (stop - start) / step - 1 := by
        field_simp
        ring
      have h2 : ⌈(stop - (start + step)) / step⌉.toNat = m := by
        rw [h1, Int.ceil_sub_one]
        have hx : (0:ℚ) < (stop - start) / step := div_pos (by linarith) hs
        have h3 : 0 < ⌈(stop - start) / step⌉ := Int.ceil_pos.mpr hx
        omega
      rw [ih (start + step) h2, List.range_succ_eq_map]
      simp only [List.map_cons, List.map_map]
      refine congrArg₂ List.cons (by norm_num) ?_
      apply List.map_congr_left
      intro k _
      simp only [Function.comp_apply]
      push_cast
      ring
  intro start
  exact key _ start rfl

/-- Gregorian leap-year test (Python `calendar`/`datetime` rule). -/
def isLeap (y : ℕ) : Bool := (y % 4 == 0 && y % 100 != 0) || y % 400 == 0

/-- Days in month `m` of year `y` (Python `datetime._DAYS_IN_MONTH`). -/
def daysInMonth (y m : ℕ) : ℕ :=
  if m = 2 then (if isLeap y then 29 else 28)
  else if m = 4 ∨ m = 6 ∨ m = 9 ∨ m = 11 then 30 else 31

/-- Days in year `y` before month `m` (Python `datetime._days_before_month`). -/
def daysBeforeMonth (y m : ℕ) : ℕ :=
  ((List.range (m - 1)).map (fun k => daysInMonth y (k + 1))).sum

/-- Days before January 1st of year `y` (Python `datetime._days_before_year`). -/
def daysBeforeYear (y : ℕ) : ℕ :=
  365 * (y - 1) + (y - 1) / 4 - (y - 1) / 100 + (y - 1) / 400

/-- Python `datetime.date(y, m, d).toordinal()`: proleptic-Gregorian
ordinal, day 1 = 0001-01-01. -/
def toOrdinal (y m d : ℕ) : ℕ := daysBeforeYear y + daysBeforeMonth y m + d

/-- The year and day-of-year of a proleptic-Gregorian ordinal (the prefix
of Python `datetime._ord2ymd`); the day-of-year is what `strftime("%j")`
prints. -/
def ordToYearDoy (ord : ℕ) : ℕ × ℕ :=
  let n := ord - 1
  let n400 := n / 146097
  let r400 := n % 146097
  let n100 := r400 / 36524
  let r100 := r400 % 36524
  let n4 := r100 / 1461
  let r4 := r100 % 1461
  let n1 := r4 / 365
  let r1 := r4 % 365
  let year := n400 * 400 + 1 + n100 * 100 + n4 * 4 + n1
  if n1 = 4 ∨ n100 = 4 then (year - 1, 366) else (year, r1 + 1)

/-- Day-of-year of an ordinal (`strftime("%j")` as an integer). -/
def doyOfOrd (ord : ℕ) : ℕ := (ordToYearDoy ord).2

/-- Python `datetime._isoweek1monday`: ordinal of the Monday starting ISO
week 1 of year `y`. -/
def isoweek1monday (y : ℕ) : ℕ :=
  let firstday := toOrdinal y 1 1
  let firstweekday := (firstday + 6) % 7
  let week1monday := firstday - firstweekday
  if firstweekday > 3 then week1monday + 7 else week1monday

/-- Python `datetime.date.isocalendar()` restricted to the (ISO year,
ISO week) pair, computed from the date's ordinal. -/
def isoYearWeek (ord : ℕ) : ℕ × ℕ :=
  let y := (ordToYearDoy ord).1
  let w1m := isoweek1monday y
  let week : ℤ := Int.fdiv ((ord : ℤ) - (w1m : ℤ)) 7
  if week < 0 then
    let y1 := y - 1
    let w1m1 := isoweek1monday y1
    (y1, (Int.fdiv ((ord : ℤ) - (w1m1 : ℤ)) 7).toNat + 1)
  else if week ≥ 52 ∧ (ord : ℤ) ≥ (isoweek1monday (y + 1) : ℤ) then
    (y + 1, 1)
  else (y, week.toNat + 1)

/-- Python `datetime.strptime(f"{y}-{week}-{w}", "%Y-%W-%w").toordinal()`:
the `_strptime._calc_julian_from_U_or_W` rule for Monday-started `%W`
weeks, with `%w` weekday `w` (0 = Sunday .. 6 = Saturday). -/
def strptimeYWw (y week w : ℕ) : ℤ :=
  let firstweekday := (toOrdinal y 1 1 + 6) % 7
  let dayOfWeek := if w = 0 then 6 else w - 1
  let week0len := (7 - firstweekday) % 7
  let julian : ℤ :=
    if week = 0 then 1 + (dayOfWeek : ℤ) - (firstweekday : ℤ)
    else 1 + (week0len : ℤ) + 7 * ((week : ℤ) - 1) + (dayOfWeek : ℤ)
  (toOrdinal y 1 1 : ℤ) + julian - 1

/-- One generated dictionary of `ModisFire._generate_isoweek`: the `start`
and `end` day-of-year fields and the bucket's ISO year and week. -/
structure IsoWeekBucket where
  startDay : ℕ
  endDay : ℕ
  year : ℕ
  isoweek : ℕ
  deriving DecidableEq, Repr

/-- One iteration body of `ModisFire._generate_isoweek` at loop date
ordinal `sOrd`: `start.isocalendar()` / `(start + 1 week).isocalendar()`,
then `%Y-%W-%w` round-trips to day-of-year for Saturday (`-6`) of the
start week and Sunday (`-0`) of the end week. -/
def mkBucket (sOrd : ℕ) : IsoWeekBucket :=
  let sy := (isoYearWeek sOrd).1
  let sw := (isoYearWeek sOrd).2
  let ey := (isoYearWeek (sOrd + 7)).1
  let ew := (isoYearWeek (sOrd + 7)).2
  { startDay := doyOfOrd (strptimeYWw sy sw 6).toNat
    endDay := doyOfOrd (strptimeYWw ey ew 0).toNat
    year := sy
    isoweek := sw }

/-- The `while start < end - timedelta(weeks=1)` loop of
`ModisFire._generate_isoweek`, stepping one week at a time.  `fuel` bounds
the iteration count; `generateIsoweek` supplies `eOrd - sOrd`, which
dominates the number of 7-day steps, so the fuel never runs out. -/
def genIsoweekAux : ℕ → ℕ → ℕ → List IsoWeekBucket
  | 0, _, _ => []
  | fuel + 1, s, e =>
    if s + 7 < e then mkBucket s :: genIsoweekAux fuel (s + 7) e else []

/-- `ModisFire._generate_isoweek` on start/end date ordinals. -/
def generateIsoweek (sOrd eOrd : ℕ) : List IsoWeekBucket :=
  genIsoweekAux (eOrd - sOrd) sOrd eOrd

/-- A burn-date mask built by `ModisFire.__init__` (lines 100-105):
`image.gte(s).Or(image.lt(e))` or `image.gte(s).And(image.lt(e))`. -/
inductive FireMask where
  | orMask (s e : ℤ)
  | andMask (s e : ℤ)
  deriving DecidableEq, Repr

/-- The mask construction of `ModisFire.__init__` (lines 96-105):
`start_day = d["start"]`, `end_day = d["end"] - 1`, OR-mask when
`start_day > end_day`, AND-mask otherwise. -/
def bucketMask (d : IsoWeekBucket) : FireMask :=
  let startDay : ℤ := (d.startDay : ℤ)
  let endDay : ℤ := (d.endDay : ℤ) - 1
  if startDay > endDay then .orMask startDay endDay else .andMask startDay endDay

/-- Whether a burn date (day-of-year value of the `BurnDate` band) is kept
by a mask. -/
def maskSelects : FireMask → ℤ → Bool
  | .orMask s e, day => decide (day ≥ s) || decide (day < e)
  | .andMask s e, day => decide (day ≥ s) && decide (day < e)

/-- The per-year mask dictionary built by `ModisFire.__init__` lines 87-106,
keyed by `(year, isoweek)` instead of the `f"{year}-{week}"` string: for
each calendar year of the configured range, the buckets of that year
contribute their masks. -/
def fireImages (startYear endYear : ℕ) (buckets : List IsoWeekBucket) :
    List ((ℕ × ℕ) × FireMask) :=
  (List.range' startYear (endYear + 1 - startYear)).flatMap fun yr =>
    (buckets.filter (fun d => d.year = yr)).map fun d =>
      ((d.year, d.isoweek), bucketMask d)


/-- Python dict update `d[k] += v` on an association list: `KeyError` when
the key is absent. -/
def updAssoc [DecidableEq κ] (l : List (κ × ℚ)) (k : κ) (v : ℚ) :
    Except PyErr (List (κ × ℚ)) :=
  if (l.lookup k).isSome then
    .ok (l.map (fun p => if p.1 = k then (p.1, p.2 + v) else p))
  else .error .keyErr

/-- A value of the summary dict returned by `TreeLoss._aggregate`: either a
number or a nested year dict. -/
inductive TLVal where
  | num (q : ℚ)
  | dict (entries : List (String × ℚ))
  deriving DecidableEq, Repr

/-- `{f"{2000 + j}": 0 for j in range(1, self.years + 1)}` with
`self.years = 18`. -/
def treeLossYears0 : List (String × ℚ) :=
  (List.range' 1 18).map (fun j => (toString (2000 + j), (0 : ℚ)))

/-- `TreeLoss._aggregate` (tree_loss.py lines 87-103): fold every
location's `tree_loss` dict into the per-year accumulators and the total
area, then return the summary dict
`{"year_data": ..., "area": ...}` (as an association list, so the Python
truthiness of the result is list non-emptiness). -/
def treeLossAggregate (data : List (List (String × ℚ))) :
    Except PyErr (List (String × TLVal)) := do
  let step : (List (String × ℚ) × ℚ) → (String × ℚ) →
      Except PyErr (List (String × ℚ) × ℚ) := fun acc kv =>
    if kv.1 ≠ "area" then do
      let tmp ← updAssoc acc.1 kv.1 kv.2
      pure (tmp, acc.2)
    else pure (acc.1, acc.2 + kv.2)
  let res ← data.foldlM (fun acc loc => loc.foldlM step acc) (treeLossYears0, 0)
  pure [("year_data", .dict res.1), ("area", .num res.2)]

/-- The `Metric` namedtuple of tree_loss.py. -/
structure TreeLossMetric where
  year_data : List (String × ℚ)
  area_km2 : ℚ
  deriving DecidableEq, Repr

/-- `TreeLoss._package_metric`: `MetricPackageException` iff the summary is
falsy (empty dict), otherwise build the namedtuple from its keys. -/
def treeLossPackage (raw : List (String × TLVal)) : Except PyErr TreeLossMetric :=
  if raw.isEmpty then .error .packageErr
  else
    match raw.lookup ("area"), raw.lookup ("year_data") with
    | some (.num a), some (.dict yd) => .ok ⟨yd, a⟩
    | _, _ => .error .keyErr

/-- The aggregate-then-package tail of `TreeLoss.measure` (lines 83-85). -/
def treeLossPipelineTail (data : List (List (String × ℚ))) :
    Except PyErr TreeLossMetric := do
  let raw ← treeLossAggregate data
  treeLossPackage raw

/-- Round-half-even of a rational (the Python `round` tie rule). -/
def roundHalfEven (x : ℚ) : ℤ :=
  let f := ⌊x⌋
  let r := x - f
  if r < 1 / 2 then f else if 1 / 2 < r then f + 1
  else if f % 2 = 0 then f else f + 1

/-- Python `round(x, 2)`, modelled exactly on rationals. -/
def pyRound2 (x : ℚ) : ℚ := (roundHalfEven (x * 100) : ℚ) / 100

/-- One raw feature result consumed by
`BiodiversityIntactnessMetric._aggregate`: sums plus the optional decile
`fixedHistogram` bins `(bin_start, count)`. -/
structure BiiRaw where
  area : ℚ
  bii_area : ℚ
  area_product : ℚ
  bii : Option (List (ℚ × ℚ))
  deriving DecidableEq, Repr

/-- The summary mapping returned by
`BiodiversityIntactnessMetric._aggregate`. -/
structure BiiSummary where
  area : ℚ
  intactness : ℚ
  mean : ℚ
  bii : List (ℚ × ℚ)
  deriving DecidableEq, Repr

/-- The ten zero-initialised decile bins keyed `"0.0"` .. `"0.9"`
(modelled as the rationals `0.0` .. `0.9`). -/
def biiHist0 : List (ℚ × ℚ) := (List.range 10).map (fun k => ((k : ℚ) / 10, 0))

/-- `BiodiversityIntactnessMetric._aggregate` (lines 114-142): sum areas,
raise `ZeroDivisionError` computing `mean` when the summed area is zero,
then merge the per-feature histograms by 2-decimal-rounded bin start
(`KeyError` on a bin outside the decile keys); empty or missing `bii`
histograms are skipped (`if bii_hist:`). -/
def biiAggregate (data : List BiiRaw) : Except PyErr BiiSummary :=
  let area := (data.map (·.area)).sum
  let intactness := (data.map (·.bii_area)).sum
  let area_product := (data.map (·.area_product)).sum
  if area = 0 then .error .zeroDivision
  else do
    let mean := area_product / area
    let hist ← data.foldlM (fun h d =>
      let els := d.bii.getD []
      if els.isEmpty then pure h
      else els.foldlM (fun h el => updAssoc h (pyRound2 el.1) el.2) h) biiHist0
    pure ⟨area, intactness, mean, hist⟩

/-- One raw feature result of `ProtectedAreas.measure`: the four directly
reduced band sums (note `area_unprotected` has its own `eq=0` mask
reduction, protected_areas.py lines 63-65). -/
structure PARaw where
  area : ℚ
  area_unprotected : ℚ
  area_land : ℚ
  area_marine : ℚ
  deriving DecidableEq, Repr

/-- `ProtectedAreas._aggregate` (lines 112-128): independent sums of the
four measured keys. -/
def paAggregate (data : List PARaw) : PARaw :=
  { area := (data.map (·.area)).sum
    area_unprotected := (data.map (·.area_unprotected)).sum
    area_land := (data.map (·.area_land)).sum
    area_marine := (data.map (·.area_marine)).sum }

/-- The `Metric` namedtuple of protected_areas.py. -/
structure PAMetric where
  area_km2 : ℚ
  marine_area_km2 : ℚ
  marine_perc : ℚ
  terrestrial_area_km2 : ℚ
  terrestrial_perc : ℚ
  unprotected_area_km2 : ℚ
  unprotected_perc : ℚ
  deriving DecidableEq, Repr

/-- `ProtectedAreas._package_metric` (lines 130-148).  The summary is a
four-key dict literal, so the `if not raw_data` guard never fires; the
percentage divisions raise `ZeroDivisionError` on zero total area. -/
def paPackage (raw : PARaw) : Except PyErr PAMetric :=
  if raw.area = 0 then .error .zeroDivision
  else .ok {
    area_km2 := raw.area
    marine_area_km2 := raw.area_marine
    marine_perc := 100 * raw.area_marine / raw.area
    terrestrial_area_km2 := raw.area_land
    terrestrial_perc := 100 * raw.area_land / raw.area
    unprotected_area_km2 := raw.area_unprotected
    unprotected_perc := 100 * raw.area_unprotected / raw.area }

/-- One raw feature result of `HumanInfluenceEnsembleMetric.measure`:
total area plus the six directly measured category areas. -/
structure HIRaw where
  area : ℚ
  area_no_data : ℚ
  area_0 : ℚ
  area_1 : ℚ
  area_2 : ℚ
  area_3 : ℚ
  area_4 : ℚ
  deriving DecidableEq, Repr

/-- The summary of `HumanInfluenceEnsembleMetric._aggregate`. -/
structure HISummary where
  area : ℚ
  mean : ℚ
  area_no_data : ℚ
  area_masked : ℚ
  area_0 : ℚ
  area_1 : ℚ
  area_2 : ℚ
  area_3 : ℚ
  area_4 : ℚ
  deriving DecidableEq, Repr

/-- `HumanInfluenceEnsembleMetric._aggregate` (human_impact.py lines
146-188): category sums, the residual
`area_masked = area - no_data - a0 - a1 - a2 - a3 - a4`, and the mean
(`ZeroDivisionError` on zero total area). -/
def hiAggregate (data : List HIRaw) : Except PyErr HISummary :=
  let area := (data.map (·.area)).sum
  let a_nd := (data.map (·.area_no_data)).sum
  let a0 := (data.map (·.area_0)).sum
  let a1 := (data.map (·.area_1)).sum
  let a2 := (data.map (·.area_2)).sum
  let a3 := (data.map (·.area_3)).sum
  let a4 := (data.map (·.area_4)).sum
  let masked := area - a_nd - a0 - a1 - a2 - a3 - a4
  let product := a0 + a1 + a2 + a3 + a4
  if area = 0 then .error .zeroDivision
  else .ok ⟨area, product / area, a_nd, masked, a0, a1, a2, a3, a4⟩

/-- One entry of `land_cover_defs.json`'s `class_defs`, as mutated by
`LandUseLandCover._aggregate`: the loop writes `class_def["area"]` into
these very dicts, which live on the metric instance
(`self._dataset_defs["class_defs"]`). -/
structure ClassDef where
  slug : String
  classes : List String
  area : Option ℚ
  deriving DecidableEq, Repr

/-- The inner double sum of `LandUseLandCover._aggregate`:
`sum(v for k, v in d["land_cover_2015"].items() if k in class_def["classes"])`
accumulated over all locations. -/
def classAreaSum (classes : List String) (data : List (List (String × ℚ))) : ℚ :=
  (data.map (fun d => ((d.filter (fun kv => kv.1 ∈ classes)).map (·.2)).sum)).sum

/-- The summary of `LandUseLandCover._aggregate`. -/
structure LCSummary where
  data_2015 : List (String × ℚ)
  area : ℚ
  deriving DecidableEq, Repr

/-- `LandUseLandCover._aggregate` (land_cover.py lines 89-115), in explicit
state-passing form: the first component is the post-call state of
`self._dataset_defs["class_defs"]` (each dict gains/overwrites its
`"area"` entry), the second is the returned summary, whose `data_2015`
reads `el["area"]` back from the mutated dicts. -/
def landCoverAggregate (classDefs : List ClassDef)
    (data : List (List (String × ℚ))) : List ClassDef × LCSummary :=
  let newDefs := classDefs.map
    (fun cd => { cd with area := some (classAreaSum cd.classes data) })
  let total := (classDefs.map (fun cd => classAreaSum cd.classes data)).sum
  (newDefs, { data_2015 := newDefs.map (fun cd => (cd.slug, cd.area.getD 0)),
              area := total })

/-- `ModisFire._aggregate` (modis_fire.py lines 169-196): for each
generated iso-week, sum the matching `(year, isoweek)` values over all
locations (an empty match list contributes `0`). -/
def fireAggregate (isoWeeks : List IsoWeekBucket)
    (data : List (List ((ℕ × ℕ) × ℚ))) : List (ℕ × ℕ × ℚ) :=
  isoWeeks.map (fun d =>
    let vals := data.flatMap (fun loc =>
      (loc.filter (fun kv => kv.1 = (d.year, d.isoweek))).map (·.2))
    (d.year, d.isoweek, vals.sum))

/-- `ModisFire._package_metric` (lines 198-210): `MetricPackageException`
iff the aggregated list is falsy (empty); otherwise the metric carries the
per-week list. -/
def firePackage (raw : List (ℕ × ℕ × ℚ)) : Except PyErr (List (ℕ × ℕ × ℚ)) :=
  if raw.isEmpty then .error .packageErr else .ok raw

/-- The construction kwargs of the area-gate scenario:
`use_exceeds_limit=True` and nothing else. -/
def kwGate : Kwargs := { use_exceeds_limit := some true }

/-- C10: whatever kwargs `ModisEvi` is constructed with, the base-pipeline
options keep their defaults (`grid=False`, `simplify=False`,
`area_threshold=1e6`, `grid_size_degrees=1`, `chunk_size=500`,
`use_exceeds_limit=False`, default config filepath), because
`ModisEvi.__init__` invokes `super().__init__()` without forwarding any
keyword arguments; only `scale` (default 250) and `best_effort`
(default True) are re-read from the caller's kwargs. -/
theorem claim10_modis_evi_keeps_base_defaults (kw : Kwargs) :
    (modisEviInit kw).grid = false ∧
    (modisEviInit kw).simplify = false ∧
    (modisEviInit kw).area_threshold = 1e6 ∧
    (modisEviInit kw).grid_size_degrees = 1 ∧
    (modisEviInit kw).chunk_size = 500 ∧
    (modisEviInit kw).use_exceeds_limit = false ∧
    (modisEviInit kw).config_filepath = "earthengine.yaml" ∧
    (modisEviInit kw).scale = kw.scale.getD 250 ∧
    (modisEviInit kw).best_effort = kw.best_effort.getD true :=
  ⟨rfl, rfl, rfl, rfl, rfl, rfl, rfl, rfl, rfl⟩

/-- C3 counterexample: constructing `BiodiversityIntactnessMetric` with no
kwargs leaves best-effort in effect (`default_best_effort = True` is
re-read after the base initializer) while `max_pixels` stays at `1e18`,
because `MetricBase.__init__` saw `best_effort = False` when it decided
whether to lower the cap.  This falsifies the claim that best-effort in
effect implies a `1e7` cap. -/
theorem claim3_best_effort_high_cap_counterexample :
    (biodiversityInit {}).best_effort = true ∧
    (biodiversityInit {}).max_pixels = 1e18 ∧
    (biodiversityInit {}).max_pixels ≠ 1e7 := by
  refine ⟨rfl, rfl, ?_⟩
  intro h
  have : (1e18 : ℚ) = 1e7 := h
  norm_num at this

/-- C3 amended: the pixel cap is `1e7` exactly when the construction
kwargs passed a truthy `best_effort` (seen by `MetricBase.__init__`);
otherwise it stays at the `max_pixels` kwarg or its `1e18` default, even
though the subclass re-reads `best_effort` with default `True`.  For
`ModisEvi`, which forwards no kwargs at all, the cap is always `1e18`. -/
theorem claim3_max_pixels_follows_base_kwarg (kw : Kwargs) :
    (biodiversityInit kw).max_pixels =
      (if kw.best_effort.getD false then (1e7 : ℚ) else kw.max_pixels.getD 1e18) ∧
    (biodiversityInit kw).best_effort = kw.best_effort.getD true ∧
    (modisEviInit kw).max_pixels = 1e18 := by
  refine ⟨?_, rfl, rfl⟩
  unfold biodiversityInit metricBaseInit
  by_cases hbe : kw.best_effort.getD false <;>
    by_cases hs : kw.simplify.getD false <;>
    simp [hbe, hs]

/-- C6 counterexample: with `simplify=True` (and no "coarse" request — no
such keyword exists), `MetricBase.__init__` sets the LOOSE tolerance
`0.001` and precision `4`, not the finer `0.00001`/`5` pair the claim
expects outside coarse mode; `_simplify_polygon` then rounds WKT output at
the hard-coded precision 4. -/
theorem claim6_simplify_fine_tolerance_counterexample :
    (metricBaseInit { simplify := some true }).simplify = true ∧
    (metricBaseInit { simplify := some true }).simplify_tolerance = 0.001 ∧
    (metricBaseInit { simplify := some true }).simplify_tolerance ≠ 0.00001 ∧
    (metricBaseInit { simplify := some true }).precision = 4 ∧
    simplifyPolygonOps (metricBaseInit { simplify := some true }) =
      [.simplifyOp 0.001 true, .bufferOp 0, .roundOp 4] := by
  refine ⟨rfl, rfl, ?_, rfl, rfl⟩
  intro h
  have : (0.001 : ℚ) = 0.00001 := h
  norm_num at this

/-- C6 amended: whenever simplification is enabled, geometry preparation
always uses tolerance `0.001` and precision `4` (there is no coarse/fine
choice: the `0.00001`/`5` values are only the initial defaults, in force
when `simplify` is off and `_simplify_polygon` is never called), and the
simplified geometry is repaired by a zero-distance buffer before the WKT
precision-4 roundtrip. -/
theorem claim6_simplify_always_loose (kw : Kwargs)
    (h : (metricBaseInit kw).simplify = true) :
    (metricBaseInit kw).simplify_tolerance = 0.001 ∧
    (metricBaseInit kw).precision = 4 ∧
    simplifyPolygonOps (metricBaseInit kw) =
      [.simplifyOp 0.001 true, .bufferOp 0, .roundOp 4] := by
  unfold metricBaseInit at h ⊢
  by_cases hs : kw.simplify.getD false <;>
    by_cases hbe : kw.best_effort.getD false <;>
    simp [hs, hbe, simplifyPolygonOps] at h ⊢

/-- C6 witness: the amended theorem applied at `simplify=True`. -/
theorem claim6_simplify_always_loose_witness :
    (metricBaseInit { simplify := some true }).simplify = true ∧
    ((metricBaseInit { simplify := some true }).simplify_tolerance = 0.001 ∧
     (metricBaseInit { simplify := some true }).precision = 4 ∧
     simplifyPolygonOps (metricBaseInit { simplify := some true }) =
       [.simplifyOp 0.001 true, .bufferOp 0, .roundOp 4]) :=
  ⟨rfl, claim6_simplify_always_loose _ rfl⟩

/-- C1: evaluating the area-gate scenario (`use_exceeds_limit=True`,
`measure` with known area `1e18` km2).  The gate fires for
`protected-areas`, `modis-fire` and `tree-loss` (whose initializers
forward kwargs), but `ModisEvi.__init__` drops its kwargs, so
`use_exceeds_limit` remains `False` and `measure` passes the gate and
proceeds to reduction — no `MetricComputeException` for that family
member, contradicting the claim. -/
theorem claim1_area_gate_modis_evi_bypassed :
    measureStart ("protected-areas") (protectedAreasInit kwGate) (some 1e18) =
      .error .computeErr ∧
    measureStart ("modis-fire") (modisFireInit kwGate) (some 1e18) =
      .error .computeErr ∧
    measureStart treeLossSlug (treeLossInit kwGate) (some 1e18) =
      .error .computeErr ∧
    (modisEviInit kwGate).use_exceeds_limit = false ∧
    measureStart modisEviSlug (modisEviInit kwGate) (some 1e18) = .ok () := by
  refine ⟨?_, ?_, ?_, rfl, ?_⟩ <;>
    norm_num [measureStart, exceedsLimit, exceedsLimitRules, protectedAreasInit,
      modisFireInit, treeLossInit, modisEviInit, metricBaseInit, kwGate,
      treeLossSlug, modisEviSlug]

/-- Whether an embedded call outcome is a `MetricPackageException`. -/
def isPackagingError : Except PyErr α → Bool
  | .error .packageErr => true
  | _ => false

/-- C4 counterexample: with zero remote feature results, the tree-loss
pipeline tail (`_aggregate` then `_package_metric`) returns a NORMAL
zero-filled metric — the summary is a two-key dict, never falsy — so no
packaging error is surfaced, contradicting the claim. -/
theorem claim4_zero_features_normal_tree_loss_result :
    treeLossAggregate [] =
      .ok [("year_data", .dict treeLossYears0), ("area", .num 0)] ∧
    treeLossPipelineTail [] = .ok ⟨treeLossYears0, 0⟩ ∧
    isPackagingError (treeLossPipelineTail []) = false := by
  refine ⟨rfl, ?_, ?_⟩ <;> rfl

/-- C4 amended: `_package_metric` raises the packaging error exactly when
its summary argument is falsy, but zero remote features do NOT make the
standard summaries falsy: tree-loss aggregates to a truthy zero-filled
dict (normal result), and biodiversity-intactness raises
`ZeroDivisionError` inside `_aggregate` before packaging.  A packaging
error from emptiness does occur where the aggregate is a list, e.g.
modis-fire with no generated iso-weeks. -/
theorem claim4_package_error_iff_falsy_summary :
    (∀ raw : List (String × TLVal),
      isPackagingError (treeLossPackage raw) = raw.isEmpty) ∧
    (∀ raw : List (ℕ × ℕ × ℚ),
      isPackagingError (firePackage raw) = raw.isEmpty) ∧
    biiAggregate [] = .error .zeroDivision ∧
    firePackage (fireAggregate [] []) = .error .packageErr := by
  refine ⟨?_, ?_, rfl, rfl⟩
  · intro raw
    unfold treeLossPackage
    rcases raw with _ | ⟨p, t⟩
    · rfl
    · simp only [List.isEmpty_cons]
      rw [if_neg (by simp)]
      split <;> rfl
  · intro raw
    unfold firePackage
    rcases raw with _ | ⟨p, t⟩
    · rfl
    · rw [if_neg (by simp)]
      rfl

/-- A concrete protected-areas raw result set: total 10 km2, measured
unprotected 1, land 2, marine 3 (categories need not tile the total:
no-data pixels fall outside every mask). -/
def paData0 : List PARaw := [⟨10, 1, 2, 3⟩]

/-- C5 counterexample: `ProtectedAreas` measures its residual
("unprotected") category DIRECTLY with its own `eq=0` mask reduction, and
the packaged metric reports that measured value (1), not
`total - (land + marine)` (5); consequently the named categories plus the
residual do not sum to the total area. -/
theorem claim5_protected_areas_residual_counterexample :
    paPackage (paAggregate paData0) = .ok ⟨10, 3, 30, 2, 20, 1, 10⟩ ∧
    (paAggregate paData0).area_unprotected ≠
      (paAggregate paData0).area -
        ((paAggregate paData0).area_land + (paAggregate paData0).area_marine) ∧
    (paAggregate paData0).area_land + (paAggregate paData0).area_marine +
        (paAggregate paData0).area_unprotected ≠ (paAggregate paData0).area := by
  refine ⟨?_, ?_, ?_⟩ <;> norm_num [paPackage, paAggregate, paData0]

/-- C5 amended: among the category-breakdown metrics only
`HumanInfluenceEnsembleMetric` computes its residual (`area_masked`) as
total minus the sum of the measured categories, so for it the measured
categories plus the residual equal the total area exactly;
`ProtectedAreas` instead reduces its "unprotected" category directly and
admits no such identity. -/
theorem claim5_human_impact_residual_sums (data : List HIRaw) (s : HISummary)
    (h : hiAggregate data = .ok s) :
    s.area_no_data + s.area_0 + s.area_1 + s.area_2 + s.area_3 + s.area_4 +
      s.area_masked = s.area := by
  unfold hiAggregate at h
  dsimp only at h
  split at h
  · exact absurd h (by simp)
  · injection h with h
    subst h
    ring

/-- A concrete human-impact raw result set. -/
def hiData0 : List HIRaw := [⟨10, 1, 1, 1, 1, 1, 1⟩]

/-- C5 witness: the amended theorem applied to a concrete aggregation. -/
theorem claim5_human_impact_residual_sums_witness :
    hiAggregate hiData0 = .ok ⟨10, 1/2, 1, 4, 1, 1, 1, 1, 1⟩ ∧
    (1 : ℚ) + 1 + 1 + 1 + 1 + 1 + 4 = 10 :=
  ⟨by norm_num [hiAggregate, hiData0], by
    have h := claim5_human_impact_residual_sums hiData0 ⟨10, 1/2, 1, 4, 1, 1, 1, 1, 1⟩
      (by norm_num [hiAggregate, hiData0])
    simpa using h⟩

/-- The `class_defs` state before any aggregation (fresh from
`land_cover_defs.json`, no `"area"` entries yet). -/
def lcDefs0 : List ClassDef := [⟨"forest", ["10"], none⟩]

/-- A concrete land-cover raw result set. -/
def lcData0 : List (List (String × ℚ)) := [[("10", 5)]]

/-- C9 counterexample: `LandUseLandCover._aggregate` mutates the metric
instance — the loop writes `class_def["area"]` into the dicts held by
`self._dataset_defs`, so the post-call state differs from the pre-call
state.  This falsifies "no field of the object is mutated". -/
theorem claim9_land_cover_aggregate_mutates_state :
    (landCoverAggregate lcDefs0 lcData0).1 ≠ lcDefs0 ∧
    (landCoverAggregate lcDefs0 lcData0).1 = [⟨"forest", ["10"], some 5⟩] ∧
    (landCoverAggregate lcDefs0 lcData0).2 = ⟨[("forest", 5)], 5⟩ := by
  refine ⟨?_, ?_, ?_⟩ <;>
    simp [landCoverAggregate, lcDefs0, lcData0, classAreaSum]

/-- C9 amended: `_aggregate` does mutate the instance (it stores each
class sum under `"area"` in the cached class definitions), but its
returned summary is a pure function of the input list and the immutable
slug/classes fields — the stored areas are overwritten, never read — so
repeated calls with the same input agree and no cross-call state affects
the output. -/
theorem claim9_land_cover_output_pure (classDefs : List ClassDef)
    (data : List (List (String × ℚ))) :
    (landCoverAggregate classDefs data).2 =
      { data_2015 := classDefs.map
          (fun cd => (cd.slug, classAreaSum cd.classes data)),
        area := (classDefs.map (fun cd => classAreaSum cd.classes data)).sum } ∧
    (landCoverAggregate (landCoverAggregate classDefs data).1 data).2 =
      (landCoverAggregate classDefs data).2 := by
  constructor
  · unfold landCoverAggregate
    simp [List.map_map, Function.comp]
  · unfold landCoverAggregate
    simp only [List.map_map]
    rfl

/-- C8: the batch reducer's slicing partitions the feature list into
consecutive chunks of at most `n` whose in-order concatenation is the
original list, and the flat, order-preserving result list — hence every
aggregate total computed from it — is the same no matter the (positive)
chunk size: processing with chunk size `n` equals processing the whole
list as one chunk. -/
theorem claim8_chunking_transparency {α β : Type} (n m : ℕ) (f : α → β)
    (g : β → ℚ) (l : List α) (hn : 0 < n) (hm : 0 < m) :
    (chunkList n l).flatten = l ∧
    (∀ c ∈ chunkList n l, c.length ≤ n) ∧
    intersectResults n f l = l.map f ∧
    intersectResults n f l = intersectResults m f l ∧
    ((intersectResults n f l).map g).sum =
      ((intersectResults m f l).map g).sum := by
  refine ⟨chunkList_flatten n hn l, chunkList_chunk_le n l, ?_, ?_, ?_⟩
  · exact intersectResults_eq_map n hn f l
  · rw [intersectResults_eq_map n hn f l, intersectResults_eq_map m hm f l]
  · rw [intersectResults_eq_map n hn f l, intersectResults_eq_map m hm f l]

/-- C8 witness: 1200 synthetic results through `chunk_size=500` versus a
single chunk of 1200. -/
theorem claim8_chunking_transparency_witness :
    0 < 500 ∧ 0 < 1200 ∧
    ((chunkList 500 ((List.range 1200).map (fun i : ℕ => (i : ℚ)))).flatten =
        (List.range 1200).map (fun i : ℕ => (i : ℚ)) ∧
      (∀ c ∈ chunkList 500 ((List.range 1200).map (fun i : ℕ => (i : ℚ))),
        c.length ≤ 500) ∧
      intersectResults 500 id ((List.range 1200).map (fun i : ℕ => (i : ℚ))) =
        ((List.range 1200).map (fun i : ℕ => (i : ℚ))).map id ∧
      intersectResults 500 id ((List.range 1200).map (fun i : ℕ => (i : ℚ))) =
        intersectResults 1200 id ((List.range 1200).map (fun i : ℕ => (i : ℚ))) ∧
      ((intersectResults 500 id
          ((List.range 1200).map (fun i : ℕ => (i : ℚ)))).map id).sum =
        ((intersectResults 1200 id
          ((List.range 1200).map (fun i : ℕ => (i : ℚ)))).map id).sum) :=
  ⟨by norm_num, by norm_num,
   claim8_chunking_transparency 500 1200 id id _ (by norm_num) (by norm_num)⟩

/-- C7: for a bounding box of positive width `W = lonE - lonS` and height
`H = latE - latS` and positive grid size `g` not exceeding both
dimensions, `_create_grid` generates exactly the cells
`(lonS + i*g, latS + j*g, ..+g, ..+g)` for `i < ⌈W/g⌉`, `j < ⌈H/g⌉` —
starting at the minimum corner, stepping by exactly `g` — so the number of
cells before intersection is `⌈W/g⌉ * ⌈H/g⌉`; when `g` exceeds both
dimensions the original feature is returned unchanged as the single
result. -/
theorem claim7_create_grid_cells (lonS lonE latS latE g : ℚ) (hg : 0 < g) :
    ((g ≤ lonE - lonS ∨ g ≤ latE - latS) →
      createGrid lonS lonE latS latE g = .cells
        (((List.range ⌈(lonE - lonS) / g⌉.toNat).map
            (fun i : ℕ => lonS + (i : ℚ) * g)).flatMap fun x =>
          ((List.range ⌈(latE - latS) / g⌉.toNat).map
            (fun j : ℕ => latS + (j : ℚ) * g)).map fun y =>
              (x, y, x + g, y + g)) ∧
      ∀ cs, createGrid lonS lonE latS latE g = .cells cs →
        cs.length = ⌈(lonE - lonS) / g⌉.toNat * ⌈(latE - latS) / g⌉.toNat) ∧
    (lonE - lonS < g → latE - latS < g →
      createGrid lonS lonE latS latE g = .original) := by
  constructor
  · intro hle
    have hcells : createGrid lonS lonE latS latE g = .cells
        ((loopVals lonS lonE g).flatMap fun x =>
          (loopVals latS latE g).map fun y => (x, y, x + g, y + g)) := by
      unfold createGrid
      rw [if_neg]
      rintro ⟨ha, hb⟩
      rcases hle with h | h
      · exact absurd h (not_le.mpr ha)
      · exact absurd h (not_le.mpr hb)
    have hlon := loopVals_eq_range_map lonE g hg lonS
    have hlat := loopVals_eq_range_map latE g hg latS
    constructor
    · rw [hcells, hlon, hlat]
    · intro cs hcs
      rw [hcells] at hcs
      injection hcs with hcs
      subst hcs
      rw [hlon, hlat, List.flatMap_map, List.length_flatMap]
      simp only [Function.comp_def, List.length_map, List.length_range]
      rw [List.map_const', List.sum_replicate, List.length_range, smul_eq_mul]
  · intro h1 h2
    unfold createGrid
    rw [if_pos ⟨h1, h2⟩]

/-- C7 witness: the grid theorem applied to the box `[0, 5/2] x [0, 1]`
with cell size `1`, where `⌈(5/2)/1⌉ * ⌈1/1⌉ = 3` cells are generated. -/
theorem claim7_create_grid_cells_witness :
    (0 : ℚ) < 1 ∧ ((1 : ℚ) ≤ 5/2 - 0 ∨ (1 : ℚ) ≤ 1 - 0) ∧
    (createGrid 0 (5/2) 0 1 1 = .cells
        (((List.range ⌈((5:ℚ)/2 - 0) / 1⌉.toNat).map
            (fun i : ℕ => (0 : ℚ) + (i : ℚ) * 1)).flatMap fun x =>
          ((List.range ⌈((1:ℚ) - 0) / 1⌉.toNat).map
            (fun j : ℕ => (0 : ℚ) + (j : ℚ) * 1)).map fun y =>
              (x, y, x + 1, y + 1)) ∧
      ∀ cs, createGrid 0 (5/2) 0 1 1 = .cells cs →
        cs.length = ⌈((5:ℚ)/2 - 0) / 1⌉.toNat * ⌈((1:ℚ) - 0) / 1⌉.toNat) ∧
    ⌈((5:ℚ)/2 - 0) / 1⌉.toNat * ⌈((1:ℚ) - 0) / 1⌉.toNat = 3 :=
  ⟨by norm_num, by norm_num,
   (claim7_create_grid_cells 0 (5/2) 0 1 1 (by norm_num)).1 (by norm_num),
   by
    have h : ⌈(5 : ℚ) / 2⌉ = 3 := by
      rw [Int.ceil_eq_iff] <;> norm_num
    norm_num [h]
    rfl⟩

/-- C2 counterexample: running `_generate_isoweek` over 2017-12-01 ..
2018-01-31 produces the year-boundary bucket `start=364, end=7`
(ISO week 52 of 2017).  It is a wraparound bucket (end 7 < start 364), but
the mask built for it is `gte(364).Or(lt(6))` — the code subtracts 1 from
the bucket end before masking — so burn day 6 is NOT selected although the
claimed mask `>= 364 OR < 7` selects it. -/
theorem claim2_fire_mask_boundary_counterexample :
    (generateIsoweek (toOrdinal 2017 12 1) (toOrdinal 2018 1 31))[4]? =
      some ⟨364, 7, 2017, 52⟩ ∧
    (7 : ℕ) < 364 ∧
    bucketMask ⟨364, 7, 2017, 52⟩ = .orMask 364 6 ∧
    maskSelects (bucketMask ⟨364, 7, 2017, 52⟩) 6 = false ∧
    (((6 : ℤ) ≥ 364) ∨ ((6 : ℤ) < 7)) := by
  refine ⟨by decide, by norm_num, by decide, by decide, by norm_num⟩

/-- C2 amended: for every generated iso-week bucket the mask is the OR of
the two half-lines exactly when the bucket wraps the year boundary in the
weak sense `end <= start`, and an AND otherwise — but with the upper bound
`end - 1`, not `end`: the code compares and masks against
`end_day = d["end"] - 1`, so the selected days are `>= start OR
< end - 1` (wraparound) respectively `>= start AND < end - 1`. -/
theorem claim2_fire_mask_or_and_shape (sOrd eOrd : ℕ) (b : IsoWeekBucket)
    (hb : b ∈ generateIsoweek sOrd eOrd) (day : ℤ) :
    (b.endDay ≤ b.startDay →
      maskSelects (bucketMask b) day =
        (decide ((b.startDay : ℤ) ≤ day) ||
         decide (day < (b.endDay : ℤ) - 1))) ∧
    (b.startDay < b.endDay →
      maskSelects (bucketMask b) day =
        (decide ((b.startDay : ℤ) ≤ day) &&
         decide (day < (b.endDay : ℤ) - 1))) := by
  constructor
  · intro h
    have hc : (b.startDay : ℤ) > (b.endDay : ℤ) - 1 := by omega
    unfold bucketMask
    rw [if_pos hc]
    rfl
  · intro h
    have hc : ¬ ((b.startDay : ℤ) > (b.endDay : ℤ) - 1) := by omega
    unfold bucketMask
    rw [if_neg hc]
    rfl

/-- C2 witness: the amended mask-shape theorem applied to the generated
wraparound bucket `start=364, end=7` at burn day 400. -/
theorem claim2_fire_mask_or_and_shape_witness :
    (⟨364, 7, 2017, 52⟩ : IsoWeekBucket) ∈
      generateIsoweek (toOrdinal 2017 12 1) (toOrdinal 2018 1 31) ∧
    (((7 : ℕ) ≤ 364 →
      maskSelects (bucketMask ⟨364, 7, 2017, 52⟩) 400 =
        (decide ((364 : ℤ) ≤ 400) || decide ((400 : ℤ) < (7 : ℤ) - 1))) ∧
     ((364 : ℕ) < 7 →
      maskSelects (bucketMask ⟨364, 7, 2017, 52⟩) 400 =
        (decide ((364 : ℤ) ≤ 400) && decide ((400 : ℤ) < (7 : ℤ) - 1)))) :=
  ⟨by decide,
   claim2_fire_mask_or_and_shape (toOrdinal 2017 12 1) (toOrdinal 2018 1 31)
     ⟨364, 7, 2017, 52⟩ (by decide) 400⟩
